import Mathlib

/-!
Shallow embedding of the guitarmagic-b repository:
- `Migrate`: scripts/migrate-chord-data.js (the idempotent seed/sync procedure
  `migrateChordData` over the hard-coded `chordCaptionData` list).
- `UserCtx`: contexts/UserContext.js (the feature-limit resolver
  `fetchDailyLimits`, the limit accessors, the daily reset effect, and the
  `userName` fallback chain).

Remote store calls are modelled by explicit state passing over list-backed
tables. Each remote call consumes one index of a fault function
`faults : Nat → Option String`; `faults n = some c` injects an error with code
`c` at the n-th remote call, `none` lets the call behave as the store would
(lookup by equality filter, `.single()` yielding the PGRST116 "no rows" code
when nothing matches; insert appending a row with a fresh generated key).
The read-only verification pass at the end of the script (step 4) only prints
counts and does not modify the tables, so it is not part of the state model.
-/

/-- JavaScript `String.prototype.split(sep)` on a single-character separator,
as used by `chordPosition.split('-')` and `email.split('@')`. -/
def jsSplitAux (sep : Char) : List Char → List (List Char)
  | [] => [[]]
  | c :: cs =>
    match jsSplitAux sep cs with
    | [] => [[c]]
    | r :: rs => if c = sep then [] :: r :: rs else (c :: r) :: rs

/-- JS `s.split(sep)` for a one-character separator, producing strings. -/
def jsSplit (s : String) (sep : Char) : List String :=
  (jsSplitAux sep s.toList).map (fun l => String.mk l)

/-- Insertion-ordered deduplication, as `[...new Set(xs)]` produces in JS:
first occurrence kept, discovery order preserved. -/
def uniqueList {α : Type} [DecidableEq α] (l : List α) : List α :=
  l.foldl (fun seen x => if x ∈ seen then seen else seen ++ [x]) []

/-- JS `v || dflt` on an optional number: `undefined`, `null` and `0` are
falsy and select the default; any other number is kept. -/
def jsOrInt (v : Option Int) (dflt : Int) : Int :=
  match v with
  | some x => if x = 0 then dflt else x
  | none => dflt

/-- JS truthiness of an optional string: `undefined`, `null` and the empty
string are falsy. -/
def strTruthy : Option String → Option String
  | some s => if s = "" then none else some s
  | none => none

namespace Migrate

/-- One record of the hard-coded `chordCaptionData` array. -/
structure ChordCaption where
  chord_name : String
  fret_position : String
  start_time : String
  end_time : String
deriving DecidableEq, Repr

/-- The hard-coded sample input of scripts/migrate-chord-data.js. -/
def chordCaptionData : List ChordCaption :=
  [ { chord_name := "D#", fret_position := "Pos2", start_time := "0:09", end_time := "0:19" },
    { chord_name := "D#", fret_position := "Open", start_time := "0:09", end_time := "0:19" },
    { chord_name := "C", fret_position := "Open", start_time := "0:21", end_time := "1:19" },
    { chord_name := "F7sus4", fret_position := "Pos6", start_time := "0:29", end_time := "1:19" },
    { chord_name := "D", fret_position := "Open", start_time := "1:09", end_time := "2:19" },
    { chord_name := "F7sus4", fret_position := "Pos6", start_time := "3:09", end_time := "3:19" },
    { chord_name := "D", fret_position := "Open", start_time := "3:09", end_time := "3:19" },
    { chord_name := "A", fret_position := "Pos1", start_time := "4:22", end_time := "4:32" },
    { chord_name := "A#", fret_position := "Pos3v2", start_time := "4:24", end_time := "4:34" } ]

/-- A row of the `chord_variations` table. -/
structure VariationRow where
  id : Nat
  chord_name : String
deriving DecidableEq, Repr

/-- A row of the `chord_positions` table. `chord_variation_id` is an `Option`
because the script writes `chordVariations[chordName]`, which is `undefined`
when the split-off name was never registered. -/
structure PositionRow where
  id : Nat
  chord_variation_id : Option Nat
  chord_name : String
  fret_position : String
  chord_position_full_name : String
  aws_svg_url_light : String
  aws_svg_url_dark : String
deriving DecidableEq, Repr

/-- The two target tables plus the store's generated-key counter. -/
structure DB where
  chord_variations : List VariationRow
  chord_positions : List PositionRow
  nextId : Nat
deriving DecidableEq, Repr

def emptyDB : DB := { chord_variations := [], chord_positions := [], nextId := 0 }

/-- PostgREST's "no rows returned" error code, the sentinel `.single()` yields
when the lookup matches nothing. -/
def sentinelNoRows : String := "PGRST116"

def hyphen : String := "-"

def svgBase : String := "https://example.com/svg/"

def lightSuffix : String := "-light.svg"

def darkSuffix : String := "-dark.svg"

/-- Mutable state threaded through one run of `migrateChordData`: the store,
the remote-call counter (for fault injection) and the number of rows this run
inserted into each table. -/
structure RunState where
  db : DB
  calls : Nat
  variationInserts : Nat
  positionInserts : Nat
deriving DecidableEq, Repr

/-- Outcome of one run: the store as left behind, the per-table insert counts,
and the error code the top-level `catch` logged (`none` on success). -/
structure MigrateResult where
  db : DB
  variationInserts : Nat
  positionInserts : Nat
  error : Option String
deriving DecidableEq, Repr

/-- The body of the first loop: look up `chord_variations` by `chord_name`
(`.single()`), treat the PGRST116 code as "not found" and insert, re-throw any
other lookup error, throw any insert error. Returns the variation key together
with the updated state, or the thrown code with the state at the throw. -/
def processVariationStep (faults : Nat → Option String) (s : RunState)
    (chordName : String) : Except (String × RunState) (Nat × RunState) :=
  let lookupNatural : Except String VariationRow :=
    match s.db.chord_variations.find? (fun r => r.chord_name == chordName) with
    | some r => Except.ok r
    | none => Except.error sentinelNoRows
  let lookupRes : Except String VariationRow :=
    match faults s.calls with
    | some c => Except.error c
    | none => lookupNatural
  let s1 : RunState := { s with calls := s.calls + 1 }
  match lookupRes with
  | Except.ok r => Except.ok (r.id, s1)
  | Except.error c =>
    if c = sentinelNoRows then
      match faults s1.calls with
      | some c2 => Except.error (c2, { s1 with calls := s1.calls + 1 })
      | none =>
        let row : VariationRow := { id := s1.db.nextId, chord_name := chordName }
        Except.ok (row.id,
          { db := { s1.db with
                      chord_variations := s1.db.chord_variations ++ [row],
                      nextId := s1.db.nextId + 1 },
            calls := s1.calls + 1,
            variationInserts := s1.variationInserts + 1,
            positionInserts := s1.positionInserts })
    else Except.error (c, s1)

/-- The first loop over `uniqueChordNames`, accumulating the
`chordVariations` name-to-key map. -/
def processVariationsAux (faults : Nat → Option String)
    (acc : List (String × Nat)) (s : RunState) :
    List String → Except (String × RunState) (List (String × Nat) × RunState)
  | [] => Except.ok (acc, s)
  | n :: rest =>
    match processVariationStep faults s n with
    | Except.error e => Except.error e
    | Except.ok (id, s1) => processVariationsAux faults (acc ++ [(n, id)]) s1 rest

/-- The body of the second loop: split the composite key on '-', look up
`chord_positions` by (chord_name, fret_position), insert when the lookup
returned the "no rows" code, skip when found, re-throw any other error. -/
def processPositionStep (faults : Nat → Option String)
    (chordVariations : List (String × Nat)) (s : RunState)
    (chordPosition : String) : Except (String × RunState) RunState :=
  let parts := jsSplit chordPosition '-'
  let chordName := (parts.get? 0).getD ""
  let fretPosition := (parts.get? 1).getD ""
  let variationId : Option Nat :=
    (chordVariations.find? (fun p => p.1 == chordName)).map (fun p => p.2)
  let lookupNatural : Except String PositionRow :=
    match s.db.chord_positions.find?
        (fun r => r.chord_name == chordName && r.fret_position == fretPosition) with
    | some r => Except.ok r
    | none => Except.error sentinelNoRows
  let lookupRes : Except String PositionRow :=
    match faults s.calls with
    | some c => Except.error c
    | none => lookupNatural
  let s1 : RunState := { s with calls := s.calls + 1 }
  match lookupRes with
  | Except.ok _ => Except.ok s1
  | Except.error c =>
    if c = sentinelNoRows then
      match faults s1.calls with
      | some c2 => Except.error (c2, { s1 with calls := s1.calls + 1 })
      | none =>
        let fullName := chordName ++ hyphen ++ fretPosition
        let row : PositionRow :=
          { id := s1.db.nextId,
            chord_variation_id := variationId,
            chord_name := chordName,
            fret_position := fretPosition,
            chord_position_full_name := fullName,
            aws_svg_url_light := svgBase ++ fullName ++ lightSuffix,
            aws_svg_url_dark := svgBase ++ fullName ++ darkSuffix }
        Except.ok
          { db := { s1.db with
                      chord_positions := s1.db.chord_positions ++ [row],
                      nextId := s1.db.nextId + 1 },
            calls := s1.calls + 1,
            variationInserts := s1.variationInserts,
            positionInserts := s1.positionInserts + 1 }
    else Except.error (c, s1)

/-- The second loop over `uniqueChordPositions`. -/
def processPositionsAux (faults : Nat → Option String)
    (chordVariations : List (String × Nat)) (s : RunState) :
    List String → Except (String × RunState) RunState
  | [] => Except.ok s
  | p :: rest =>
    match processPositionStep faults chordVariations s p with
    | Except.error e => Except.error e
    | Except.ok s1 => processPositionsAux faults chordVariations s1 rest

/-- `migrateChordData` from scripts/migrate-chord-data.js: computes the unique
chord names and composite position keys from the hard-coded input, upserts
both tables by lookup-before-insert, and catches any thrown error at the top
(logging it; rows already inserted stay in the store). -/
def migrateChordData (faults : Nat → Option String) (db0 : DB) : MigrateResult :=
  let uniqueChordNames := uniqueList (chordCaptionData.map (fun i => i.chord_name))
  let s0 : RunState := { db := db0, calls := 0, variationInserts := 0, positionInserts := 0 }
  match processVariationsAux faults [] s0 uniqueChordNames with
  | Except.error (c, s) =>
    { db := s.db, variationInserts := s.variationInserts,
      positionInserts := s.positionInserts, error := some c }
  | Except.ok (chordVariations, s1) =>
    let uniqueChordPositions :=
      uniqueList (chordCaptionData.map (fun i => i.chord_name ++ hyphen ++ i.fret_position))
    match processPositionsAux faults chordVariations s1 uniqueChordPositions with
    | Except.error (c, s) =>
      { db := s.db, variationInserts := s.variationInserts,
        positionInserts := s.positionInserts, error := some c }
    | Except.ok s2 =>
      { db := s2.db, variationInserts := s2.variationInserts,
        positionInserts := s2.positionInserts, error := none }

/-- A fault-free store: every remote call behaves normally. -/
def noFaults : Nat → Option String := fun _ => none

/-- Inject error code `c` at remote call number `k` only. -/
def faultAt (k : Nat) (c : String) : Nat → Option String :=
  fun n => if n = k then some c else none

end Migrate

namespace UserCtx

/-- One per-tier limit table (a JS object mapping tier name to number),
modelled as an association list; `lookupTier` is property access `m?.[tier]`. -/
def lookupTier (m : List (String × Int)) (tier : String) : Option Int :=
  (m.find? (fun p => p.1 == tier)).map (fun p => p.2)

/-- The three documented literal default tables of `fetchDailyLimits`. -/
def defaultDailySearchLimits : List (String × Int) :=
  [("freebird", 8), ("roadie", 24), ("hero", 100)]

def defaultDailyWatchTimeLimits : List (String × Int) :=
  [("freebird", 60), ("roadie", 180), ("hero", 480)]

def defaultFavoriteLimits : List (String × Int) :=
  [("freebird", 0), ("roadie", 12), ("hero", -1)]

/-- The `dailyLimits` state value: all three categories always present once
set (each `setDailyLimits` call supplies all three). -/
structure Limits where
  daily_search_limits : List (String × Int)
  daily_watch_time_limits : List (String × Int)
  favorite_limits : List (String × Int)
deriving DecidableEq, Repr

/-- The limits the catch-block fallback installs. -/
def defaultLimits : Limits :=
  { daily_search_limits := defaultDailySearchLimits,
    daily_watch_time_limits := defaultDailyWatchTimeLimits,
    favorite_limits := defaultFavoriteLimits }

/-- The JSON `setting_value` of the `feature_gates` row: each category object
may be absent (`undefined`/`null`, the falsy cases of `||` on an object). -/
structure SettingValue where
  daily_search_limits : Option (List (String × Int))
  daily_watch_time_limits : Option (List (String × Int))
  favorite_limits : Option (List (String × Int))
deriving DecidableEq, Repr

/-- The `admin_settings` row as returned by `.single()` on success. -/
structure SettingsRow where
  setting_value : Option SettingValue
deriving DecidableEq, Repr

/-- `fetchDailyLimits` from contexts/UserContext.js as a state transformer on
the `dailyLimits` state: the fetch result is either an error (any `.single()`
error, including the missing-row case, is thrown and caught, installing all
three defaults) or a row; when the row's `setting_value` is present, each
category uses the remote table `||` its default; when `setting_value` is
absent, `setDailyLimits` is never called and the previous state is kept. -/
def fetchDailyLimits (res : Except String SettingsRow) (dailyLimits : Option Limits) :
    Option Limits :=
  match res with
  | Except.error _ => some defaultLimits
  | Except.ok data =>
    match data.setting_value with
    | some sv =>
      some { daily_search_limits := sv.daily_search_limits.getD defaultDailySearchLimits,
             daily_watch_time_limits :=
               sv.daily_watch_time_limits.getD defaultDailyWatchTimeLimits,
             favorite_limits := sv.favorite_limits.getD defaultFavoriteLimits }
    | none => dailyLimits

/-- A JS `Date` value: `toDateString()` depends only on the calendar fields,
ignoring the time-of-day fields. -/
structure JsDate where
  year : Int
  month : Nat
  day : Nat
  hour : Nat
  minute : Nat
deriving DecidableEq, Repr

/-- `Date.prototype.toDateString()`: the calendar date, time-of-day dropped. -/
def toDateString (d : JsDate) : Int × Nat × Nat := (d.year, d.month, d.day)

/-- A `user_profiles` row as held in the `profile` state. Optional fields
model JS `undefined`/`null`. -/
structure Profile where
  id : String
  email : Option String
  full_name : Option String
  subscription_tier : Option String
  subscription_status : Option String
  daily_searches_used : Option Int
  last_search_reset : Option JsDate
deriving DecidableEq, Repr

/-- `profile?.subscription_tier` under the JS truthiness test the accessors
apply (`!profile?.subscription_tier`). -/
def tierOf (profile : Option Profile) : Option String :=
  strTruthy (profile.bind (fun p => p.subscription_tier))

/-- `getDailySearchLimit`: 0 when limits are unloaded or the tier is falsy,
else `dailyLimits.daily_search_limits?.[tier] || 0`. -/
def getDailySearchLimit (dailyLimits : Option Limits) (profile : Option Profile) : Int :=
  match dailyLimits, tierOf profile with
  | some dl, some tier => jsOrInt (lookupTier dl.daily_search_limits tier) 0
  | _, _ => 0

/-- `profile?.daily_searches_used || 0`. -/
def dailySearchesUsed (profile : Option Profile) : Int :=
  jsOrInt (profile.bind (fun p => p.daily_searches_used)) 0

/-- `checkDailySearchLimit`: `limit === -1 ? true : used < limit`. -/
def checkDailySearchLimit (dailyLimits : Option Limits) (profile : Option Profile) : Bool :=
  let limit := getDailySearchLimit dailyLimits profile
  let used := dailySearchesUsed profile
  if limit = -1 then true else decide (used < limit)

/-- `getDailyWatchTimeLimit`: 60 when limits are unloaded or the tier is
falsy, else `dailyLimits.daily_watch_time_limits?.[tier] || 60`. -/
def getDailyWatchTimeLimit (dailyLimits : Option Limits) (profile : Option Profile) : Int :=
  match dailyLimits, tierOf profile with
  | some dl, some tier => jsOrInt (lookupTier dl.daily_watch_time_limits tier) 60
  | _, _ => 60

/-- The raw remote entry `getDailyWatchTimeLimit` would read, before the
`|| 60` fallback; `none` when limits or tier are missing or the tier has no
entry. Used to state when the fallback fires. -/
def rawWatchEntry (dailyLimits : Option Limits) (profile : Option Profile) : Option Int :=
  match dailyLimits, tierOf profile with
  | some dl, some tier => lookupTier dl.daily_watch_time_limits tier
  | _, _ => none

/-- `getFavoriteLimit`: 0 when limits are unloaded or the tier is falsy, else
`dailyLimits.favorite_limits?.[tier] || 0`. -/
def getFavoriteLimit (dailyLimits : Option Limits) (profile : Option Profile) : Int :=
  match dailyLimits, tierOf profile with
  | some dl, some tier => jsOrInt (lookupTier dl.favorite_limits tier) 0
  | _, _ => 0

/-- `resetDailySearchCount`: returns whether the `reset_daily_searches`
remote procedure is invoked (the function returns early when `!user?.id`). -/
def resetDailySearchCount (userId : Option String) : Bool :=
  match strTruthy userId with
  | some _ => true
  | none => false

/-- The daily-reset effect (the `useEffect` keyed on
`profile?.last_search_reset`): when a last-reset date is present and its
`toDateString()` differs from today's, call `resetDailySearchCount`. Returns
whether the remote reset mutation fires. -/
def dailyResetEffect (userId : Option String) (lastSearchReset : Option JsDate)
    (today : JsDate) : Bool :=
  match lastSearchReset with
  | none => false
  | some d =>
    if toDateString d ≠ toDateString today then resetDailySearchCount userId else false

/-- `userName` from the provider value:
`profile?.full_name || profile?.email?.split('@')[0] || 'User'`. -/
def userName (profile : Option Profile) : String :=
  match strTruthy (profile.bind (fun p => p.full_name)) with
  | some n => n
  | none =>
    match profile.bind (fun p => p.email) with
    | some e =>
      match strTruthy (some ((jsSplit e '@').headD "")) with
      | some localPart => localPart
      | none => "User"
    | none => "User"

/-- The claimed fallback chain, written from the claim's words: full_name
when non-empty, otherwise the substring of the email before the first '@'
whenever the email is present, otherwise the literal 'User'. For comparison
with `userName`. -/
def userNameClaim (profile : Option Profile) : String :=
  match profile.bind (fun p => p.full_name) with
  | some n =>
    if n ≠ "" then n
    else
      match profile.bind (fun p => p.email) with
      | some e => (jsSplit e '@').headD ""
      | none => "User"
  | none =>
    match profile.bind (fun p => p.email) with
    | some e => (jsSplit e '@').headD ""
    | none => "User"

/-- Helper for the amended chain: the email's part before the first '@' when
that part is non-empty, else 'User'. -/
def amendedEmailPart : Option String → String
  | some e =>
    let localPart := (jsSplit e '@').headD ""
    if localPart ≠ "" then localPart else "User"
  | none => "User"

/-- The amended fallback chain: as claimed, except that the email's part
before the first '@' is used only when that part is non-empty; otherwise the
chain falls through to 'User'. -/
def userNameAmendedSpec (profile : Option Profile) : String :=
  match profile.bind (fun p => p.full_name) with
  | some n =>
    if n ≠ "" then n
    else amendedEmailPart (profile.bind (fun p => p.email))
  | none => amendedEmailPart (profile.bind (fun p => p.email))

/-- A profile whose email has an empty part before the '@' and no full name. -/
def emptyLocalProfile : Profile :=
  { id := "u1", email := some "@example.com", full_name := none,
    subscription_tier := none, subscription_status := none,
    daily_searches_used := none, last_search_reset := none }

end UserCtx

open Migrate UserCtx

/-- A freebird-tier profile with a given used count, for concrete limit
checks. -/
def freebirdProfile (used : Int) : Profile :=
  { id := "u2", email := none, full_name := none,
    subscription_tier := some "freebird", subscription_status := some "active",
    daily_searches_used := some used, last_search_reset := none }

/-- A hero-tier profile with a given used count. -/
def heroProfile (used : Int) : Profile :=
  { id := "u3", email := none, full_name := none,
    subscription_tier := some "hero", subscription_status := some "active",
    daily_searches_used := some used, last_search_reset := none }

/-- A limits mapping whose hero search limit is the unlimited sentinel. -/
def unlimitedLimits : Limits :=
  { daily_search_limits := [("freebird", 8), ("roadie", 24), ("hero", -1)],
    daily_watch_time_limits := defaultDailyWatchTimeLimits,
    favorite_limits := defaultFavoriteLimits }

/-- A concrete user id for witness instantiations. -/
def sampleUserId : String := "u1"

/-- Late evening of one calendar day. -/
def date1 : JsDate := { year := 2025, month := 10, day := 10, hour := 23, minute := 59 }

/-- Early morning of the following calendar day. -/
def date2 : JsDate := { year := 2025, month := 10, day := 11, hour := 0, minute := 5 }

/-- One fault-free run of the seed/sync procedure from an empty store. -/
def runOnce : MigrateResult := migrateChordData noFaults emptyDB

/-- A second fault-free run over the store the first run left behind. -/
def runTwice : MigrateResult := migrateChordData noFaults runOnce.db

/-- The first record of `chordCaptionData`, used to instantiate witnesses. -/
def sampleCaption : ChordCaption :=
  { chord_name := "D#", fret_position := "Pos2", start_time := "0:09", end_time := "0:19" }

/-- The `chord_positions` row the first run creates for the first caption. -/
def samplePositionRow : PositionRow :=
  { id := 6, chord_variation_id := some 0, chord_name := "D#", fret_position := "Pos2",
    chord_position_full_name := "D#-Pos2",
    aws_svg_url_light := "https://example.com/svg/D#-Pos2-light.svg",
    aws_svg_url_dark := "https://example.com/svg/D#-Pos2-dark.svg" }

/-- C1: running `migrateChordData` twice on the same fixed caption input is
idempotent: the second run leaves both tables exactly as the first run did
and performs zero inserts, and the row sets of one run hold exactly one
`chord_variations` row per distinct chord name and exactly one
`chord_positions` row per distinct (chord_name, fret_position) pair. -/
theorem migrateChordData_idempotent :
    runTwice.db = runOnce.db
  ∧ runTwice.variationInserts = 0
  ∧ runTwice.positionInserts = 0
  ∧ runTwice.error = none
  ∧ runOnce.db.chord_variations.map (fun r => r.chord_name)
      = uniqueList (chordCaptionData.map (fun i => i.chord_name))
  ∧ (runOnce.db.chord_variations.map (fun r => r.chord_name)).Nodup
  ∧ runOnce.db.chord_positions.map (fun r => (r.chord_name, r.fret_position))
      = uniqueList (chordCaptionData.map (fun i => (i.chord_name, i.fret_position)))
  ∧ (runOnce.db.chord_positions.map (fun r => (r.chord_name, r.fret_position))).Nodup := by
  decide

/-- C7: on the hard-coded 9-row caption input, starting from empty tables,
the procedure inserts exactly 6 `chord_variations` rows (one per distinct
chord name) and exactly 7 `chord_positions` rows (one per distinct
(chord_name, fret_position) pair). -/
theorem migrateChordData_sample_counts :
    chordCaptionData.length = 9
  ∧ (uniqueList (chordCaptionData.map (fun i => i.chord_name))).length = 6
  ∧ (uniqueList (chordCaptionData.map (fun i => (i.chord_name, i.fret_position)))).length = 7
  ∧ runOnce.db.chord_variations.length = 6
  ∧ runOnce.db.chord_positions.length = 7
  ∧ runOnce.variationInserts = 6
  ∧ runOnce.positionInserts = 7
  ∧ runOnce.error = none := by
  decide

/-- C4: every `chord_positions` row stores
`chord_position_full_name = chord_name ++ "-" ++ fret_position`, and for each
caption record of the input the row it gives rise to carries exactly the
full name formed from that caption's original chord_name and fret_position. -/
theorem migrateChordData_full_name :
    (∀ row ∈ runOnce.db.chord_positions,
        row.chord_position_full_name = row.chord_name ++ hyphen ++ row.fret_position)
  ∧ (∀ cap ∈ chordCaptionData,
        ∃ row ∈ runOnce.db.chord_positions,
          row.chord_name = cap.chord_name ∧ row.fret_position = cap.fret_position ∧
          row.chord_position_full_name = cap.chord_name ++ hyphen ++ cap.fret_position) := by
  decide

theorem migrateChordData_full_name_witness :
    ∃ row ∈ runOnce.db.chord_positions,
      row.chord_name = sampleCaption.chord_name ∧
      row.fret_position = sampleCaption.fret_position ∧
      row.chord_position_full_name
        = sampleCaption.chord_name ++ hyphen ++ sampleCaption.fret_position :=
  migrateChordData_full_name.2 sampleCaption (by decide)

/-- C5: the run creates exactly one `chord_variations` row per chord name
(no duplicate names), every caption's chord name has its variation row, and
every `chord_positions` row references, through `chord_variation_id`, the key
of the variation row sharing its chord name. -/
theorem migrateChordData_variation_reference :
    (runOnce.db.chord_variations.map (fun v => v.chord_name)).Nodup
  ∧ (∀ cap ∈ chordCaptionData,
        ∃ v ∈ runOnce.db.chord_variations, v.chord_name = cap.chord_name)
  ∧ (∀ row ∈ runOnce.db.chord_positions,
        ∃ v ∈ runOnce.db.chord_variations,
          v.chord_name = row.chord_name ∧ row.chord_variation_id = some v.id) := by
  decide

theorem migrateChordData_variation_reference_witness :
    ∃ v ∈ runOnce.db.chord_variations,
      v.chord_name = samplePositionRow.chord_name ∧
      samplePositionRow.chord_variation_id = some v.id :=
  migrateChordData_variation_reference.2.2 samplePositionRow (by decide)

/-- C6: on an empty store every lookup answers with the PGRST116 "no rows"
code, yet the run is not treated as failed: it completes with all inserts
performed, and an injected PGRST116 on a lookup is likewise not fatal. Any
other error code on a lookup (here injected at remote call 4, the lookup of
the third chord name) aborts the whole remaining run: the result carries that
code, the store keeps exactly the two variation rows already inserted (no
rollback) and nothing after the failing call is attempted. An insert error
(injected at remote call 1, the first insert) aborts the same way. -/
theorem migrateChordData_error_handling (c : String) (h : c ≠ sentinelNoRows) :
    (runOnce.error = none ∧ runOnce.variationInserts = 6 ∧ runOnce.positionInserts = 7)
  ∧ (migrateChordData (faultAt 4 sentinelNoRows) emptyDB).error = none
  ∧ migrateChordData (faultAt 4 c) emptyDB
      = { db := { chord_variations := [{ id := 0, chord_name := "D#" },
                                       { id := 1, chord_name := "C" }],
                  chord_positions := [], nextId := 2 },
          variationInserts := 2, positionInserts := 0, error := some c }
  ∧ migrateChordData (faultAt 1 c) emptyDB
      = { db := emptyDB, variationInserts := 0, positionInserts := 0, error := some c } := by
  rw [sentinelNoRows] at h
  refine ⟨by decide, by decide, ?_, ?_⟩
  all_goals
    simp [migrateChordData, processVariationsAux, processVariationStep, uniqueList,
          chordCaptionData, emptyDB, faultAt, sentinelNoRows, h, hyphen]

/-- A concrete non-PGRST116 error code for the witness instantiation. -/
def otherCode : String := "08006"

theorem migrateChordData_error_handling_witness :
    (runOnce.error = none ∧ runOnce.variationInserts = 6 ∧ runOnce.positionInserts = 7)
  ∧ (migrateChordData (faultAt 4 sentinelNoRows) emptyDB).error = none
  ∧ migrateChordData (faultAt 4 otherCode) emptyDB
      = { db := { chord_variations := [{ id := 0, chord_name := "D#" },
                                       { id := 1, chord_name := "C" }],
                  chord_positions := [], nextId := 2 },
          variationInserts := 2, positionInserts := 0, error := some otherCode }
  ∧ migrateChordData (faultAt 1 otherCode) emptyDB
      = { db := emptyDB, variationInserts := 0, positionInserts := 0,
          error := some otherCode } :=
  migrateChordData_error_handling otherCode (by decide)

/-- C2 counterexample: a successful fetch whose row carries no
`setting_value` leaves the limits state unset (the initial `null` is kept),
not the documented defaults — `setDailyLimits` is only called when
`setting_value` is truthy. -/
theorem fetchDailyLimits_missing_value_counterexample :
    fetchDailyLimits (Except.ok { setting_value := none }) none = none
  ∧ fetchDailyLimits (Except.ok { setting_value := none }) none ≠ some defaultLimits :=
  ⟨rfl, by decide⟩

/-- C2 (amended): each limit category independently uses the remote table
when present and its documented literal default otherwise; a fetch error
(including the missing-row error from `.single()`) installs the documented
defaults for all three categories together; but when the fetch succeeds and
the row's `setting_value` is absent, no limits are installed and the
previous state is kept. -/
theorem fetchDailyLimits_amended (prev : Option Limits) (e : String) (sv : SettingValue) :
    fetchDailyLimits (Except.error e) prev = some defaultLimits
  ∧ fetchDailyLimits (Except.ok { setting_value := some sv }) prev
      = some { daily_search_limits := sv.daily_search_limits.getD defaultDailySearchLimits,
               daily_watch_time_limits :=
                 sv.daily_watch_time_limits.getD defaultDailyWatchTimeLimits,
               favorite_limits := sv.favorite_limits.getD defaultFavoriteLimits }
  ∧ fetchDailyLimits (Except.ok { setting_value := none }) prev = prev :=
  ⟨rfl, rfl, rfl⟩

/-- C3: with a loaded limits mapping and profile, `checkDailySearchLimit` is
true exactly when the resolved limit is the unlimited sentinel −1 or the used
count is strictly below the limit; in particular freebird at limit 8 is
refused at used = 8 and allowed at used = 7, and a −1 limit allows any used
count. -/
theorem checkDailySearchLimit_spec (l : Limits) (p : Profile) :
    (checkDailySearchLimit (some l) (some p) = true ↔
      (getDailySearchLimit (some l) (some p) = -1 ∨
       dailySearchesUsed (some p) < getDailySearchLimit (some l) (some p)))
  ∧ checkDailySearchLimit (some defaultLimits) (some (freebirdProfile 8)) = false
  ∧ checkDailySearchLimit (some defaultLimits) (some (freebirdProfile 7)) = true
  ∧ checkDailySearchLimit (some unlimitedLimits) (some (heroProfile 10000)) = true := by
  refine ⟨?_, by decide, by decide, by decide⟩
  unfold checkDailySearchLimit
  by_cases hl : getDailySearchLimit (some l) (some p) = -1
  · simp [hl]
  · simp [hl]

/-- C9: `getDailyWatchTimeLimit` never returns 0: whenever the limits are
unloaded, the tier is falsy, or the tier's raw entry is absent or 0, the
fallback 60 is returned, so a stored per-tier 0 is unobservable through this
accessor. -/
theorem getDailyWatchTimeLimit_spec (dl : Option Limits) (p : Option Profile) :
    getDailyWatchTimeLimit dl p ≠ 0
  ∧ ((rawWatchEntry dl p = none ∨ rawWatchEntry dl p = some 0) →
      getDailyWatchTimeLimit dl p = 60) := by
  simp only [getDailyWatchTimeLimit, rawWatchEntry]
  rcases dl with _ | l
  · exact ⟨show (60 : Int) ≠ 0 by norm_num, fun _ => rfl⟩
  · rcases ht : tierOf p with _ | t
    · exact ⟨show (60 : Int) ≠ 0 by norm_num, fun _ => rfl⟩
    · rcases hv : lookupTier l.daily_watch_time_limits t with _ | v
      · simp [hv, jsOrInt]
      · by_cases hz : v = 0
        · simp [hv, jsOrInt, hz]
        · simp [hv, jsOrInt, hz]

theorem getDailyWatchTimeLimit_spec_witness :
    getDailyWatchTimeLimit none none ≠ 0 ∧ getDailyWatchTimeLimit none none = 60 :=
  ⟨(getDailyWatchTimeLimit_spec none none).1,
   (getDailyWatchTimeLimit_spec none none).2 (Or.inl rfl)⟩

/-- C8: with a signed-in user, the daily-reset effect fires the remote reset
mutation exactly when the stored `last_search_reset` and the current date
differ as calendar dates (`toDateString`), never when both fall on the same
calendar day at any time-of-day, and never when no last reset date is held. -/
theorem dailyResetEffect_spec (uid : String) (h : uid ≠ "") (d today : JsDate)
    (y : Int) (mo da hr1 mi1 hr2 mi2 : Nat) :
    (dailyResetEffect (some uid) (some d) today = true ↔
        toDateString d ≠ toDateString today)
  ∧ (toDateString d = toDateString today →
        dailyResetEffect (some uid) (some d) today = false)
  ∧ dailyResetEffect (some uid)
        (some { year := y, month := mo, day := da, hour := hr1, minute := mi1 })
        { year := y, month := mo, day := da, hour := hr2, minute := mi2 } = false
  ∧ dailyResetEffect (some uid) none today = false := by
  have hs : resetDailySearchCount (some uid) = true := by
    simp [resetDailySearchCount, strTruthy, h]
  refine ⟨?_, ?_, ?_, rfl⟩
  · by_cases hd : toDateString d = toDateString today <;>
      simp [dailyResetEffect, hs, hd]
  · intro hd
    simp [dailyResetEffect, hd]
  · simp [dailyResetEffect, toDateString]

theorem dailyResetEffect_spec_witness :
    (dailyResetEffect (some sampleUserId) (some date1) date2 = true ↔
        toDateString date1 ≠ toDateString date2)
  ∧ (toDateString date1 = toDateString date2 →
        dailyResetEffect (some sampleUserId) (some date1) date2 = false)
  ∧ dailyResetEffect (some sampleUserId)
        (some { year := 2025, month := 10, day := 11, hour := 3, minute := 0 })
        { year := 2025, month := 10, day := 11, hour := 15, minute := 30 } = false
  ∧ dailyResetEffect (some sampleUserId) none date2 = false :=
  dailyResetEffect_spec sampleUserId (by decide) date1 date2 2025 10 11 3 0 15 30

/-- C10 counterexample: with no full name and the email "@example.com", the
claimed chain yields the empty part before the '@', but the code yields the
literal 'User' because the empty string is falsy in the `||` chain. -/
theorem userName_claim_counterexample :
    userName (some emptyLocalProfile) = "User"
  ∧ userNameClaim (some emptyLocalProfile) = ""
  ∧ userName (some emptyLocalProfile) ≠ userNameClaim (some emptyLocalProfile) :=
  ⟨rfl, rfl, by decide⟩

/-- C10 (amended): `userName` equals `full_name` when that is non-empty;
otherwise, when the email is present and its part before the first '@' is
non-empty, that part; otherwise the literal 'User'. -/
theorem userName_amended (p : Option Profile) : userName p = userNameAmendedSpec p := by
  rcases p with _ | prof
  · rfl
  · unfold userName userNameAmendedSpec amendedEmailPart
    rcases hf : prof.full_name with _ | n
    · simp [hf, strTruthy]
      rcases he : prof.email with _ | e
      · rfl
      · by_cases hl : (jsSplit e '@').head?.getD "" = "" <;> simp [hl]
    · by_cases hn : n = ""
      · simp [hf, hn, strTruthy]
        rcases he : prof.email with _ | e
        · rfl
        · by_cases hl : (jsSplit e '@').head?.getD "" = "" <;> simp [hl]
      · simp [hf, hn, strTruthy]
